import Mathlib

/-!
Verification of the SV4D grid scheduling logic of
`scripts/sampling/simple_video_sample_4d.py`.

The script owns a 2-D grid of optional images indexed by (frame, view),
fills it by an initialization step, an anchor diffusion pass and a dense
windowed diffusion pass, and finally assembles output videos.  The
diffusion model itself is external; it is embedded here as an abstract
oracle.  All index arithmetic, grid bookkeeping and pass structure are
translated directly from the source.
-/

namespace SV4D

/-- Python float modulo: `x % m = x - m * floor (x / m)`.  For `m > 0` the
result lies in `[0, m)`. -/
def pymod {R : Type} [LinearOrderedField R] [FloorRing R] (x m : R) : R :=
  x - m * (⌊x / m⌋ : ℤ)

/-- `np.deg2rad`, with the value of pi passed explicitly so that the
definition stays executable on `ℚ` and exact on `ℝ`. -/
def deg2rad {R : Type} [LinearOrderedField R] (pi : R) (x : R) : R :=
  x * pi / 180

/-- Source line `T = 5`: number of frames per sample. -/
def T : ℕ := 5

/-- Source line `V = 8`: number of views per sample. -/
def V : ℕ := 8

/-- Source line `n_frames = 21`: number of input and output video frames. -/
def n_frames : ℕ := 21

/-- Source line `n_views = V + 1`: number of output video views. -/
def n_views : ℕ := V + 1

/-- Source line `n_views_sv3d = 21`. -/
def n_views_sv3d : ℕ := 21

/-- Source: `subsampled_views = np.array([0, 2, 5, 7, 9, 12, 14, 16, 19])`. -/
def subsampled_views : List ℕ := [0, 2, 5, 7, 9, 12, 14, 16, 19]

/-- `np.arange start stop step` over naturals (positive step). -/
def arange (start stop step : ℕ) : List ℕ :=
  (List.range ((stop - start + step - 1) / step)).map (fun k => start + k * step)

/-- Source: `frame_indices = np.arange(T - 1, n_frames, T - 1)` of the anchor pass. -/
def anchor_frame_indices : List ℕ := arange (T - 1) n_frames (T - 1)

/-- Source: `np.arange(0, n_frames - 1, T - 1)`, the dense pass window starts. -/
def windowStarts : List ℕ := arange 0 (n_frames - 1) (T - 1)

/-- Source: `view_indices = np.arange(V) + 1`. -/
def view_indices : List ℕ := (List.range V).map (fun v => v + 1)

/-- Source: `frame_indices = t0 + np.arange(T)` at the start of a dense window. -/
def windowFrames (t0 : ℕ) : List ℕ := (List.range T).map (fun i => t0 + i)

/-- Frame traversal order actually used on iteration `k` of a dense window:
the window list is reversed at the top of every iteration
(`frame_indices = frame_indices[::-1].copy()`), so iteration `k` uses the
window reversed `k + 1` times. -/
def frameOrder (t0 k : ℕ) : List ℕ := List.reverse^[k + 1] (windowFrames t0)

/-- Frame list left over after the step loop of a dense window finishes:
the window reversed `steps` times (for `steps = 0` the loop body never runs). -/
def finalFrameOrder (t0 steps : ℕ) : List ℕ := List.reverse^[steps] (windowFrames t0)

/-- Source: view index of the diagonal video frame `t`,
`(t // (n_frames // n_views)) % n_views` (all integer division). -/
def diagViewIndex (t : ℕ) : ℕ := (t / (n_frames / n_views)) % n_views

/-- Modelled from the spec: the diagonal view index as literally written in
the claim, `floor(t / (21 / 9)) mod 9` with exact (rational) division
`21 / 9 = 7/3`.  Stated only to compare against `diagViewIndex` from the
source. -/
def diagViewIndexSpec (t : ℕ) : ℕ :=
  (⌊(t : ℚ) / ((21 : ℚ) / (9 : ℚ))⌋).toNat % 9

/-- Iterating `List.reverse` only depends on the parity of the count. -/
theorem reverse_iterate_parity {γ : Type} (n : ℕ) (l : List γ) :
    List.reverse^[n] l = if n % 2 = 1 then l.reverse else l := by
  induction n with
  | zero => simp
  | succ n ih =>
    rw [Function.iterate_succ_apply', ih]
    rcases Nat.mod_two_eq_zero_or_one n with h | h
    · have h2 : (n + 1) % 2 = 1 := by omega
      simp [h, h2]
    · have h2 : (n + 1) % 2 = 0 := by omega
      simp [h, h2]

/-- C6: for n_frames=21, T=5, V=8 the anchor-pass frame indices with stride
T-1=4 are exactly [4, 8, 12, 16, 20] and the dense-pass window starts are
exactly [0, 4, 8, 12, 16]. -/
theorem C6_index_lists :
    anchor_frame_indices = [4, 8, 12, 16, 20] ∧
    windowStarts = [0, 4, 8, 12, 16] := by
  decide

/-- C3 counterexample: the claim says even-numbered iterations traverse the
window in ascending order, but iteration 0 (even) of the window starting at 0
traverses [4, 3, 2, 1, 0], not the ascending [0, 1, 2, 3, 4]: the source
reverses the frame list before its first use. -/
theorem C3_counterexample :
    frameOrder 0 0 = [4, 3, 2, 1, 0] ∧ frameOrder 0 0 ≠ [0, 1, 2, 3, 4] := by
  decide

/-- C3 amended: each iteration of a dense window reverses the frame
traversal order of the previous iteration, but the parity is the opposite of
the claim: even-numbered iterations traverse the window in descending order
and odd-numbered iterations in ascending order. -/
theorem C3_alternating_order (t0 k : ℕ) :
    frameOrder t0 (k + 1) = (frameOrder t0 k).reverse ∧
    (k % 2 = 0 → frameOrder t0 k = (windowFrames t0).reverse) ∧
    (k % 2 = 1 → frameOrder t0 k = windowFrames t0) := by
  refine ⟨?_, ?_, ?_⟩
  · show List.reverse^[k + 1 + 1] (windowFrames t0) = _
    rw [Function.iterate_succ_apply']
    rfl
  · intro h
    have h2 : (k + 1) % 2 = 1 := by omega
    rw [frameOrder, reverse_iterate_parity, if_pos h2]
  · intro h
    have h2 : (k + 1) % 2 = 0 := by omega
    rw [frameOrder, reverse_iterate_parity, if_neg (by omega)]

/-- C3 witness: at window start 0, iteration 3 reverses iteration 2, and
iteration 2 (even) is descending. -/
theorem C3_alternating_order_witness :
    frameOrder 0 3 = (frameOrder 0 2).reverse ∧
    frameOrder 0 2 = (windowFrames 0).reverse :=
  ⟨(C3_alternating_order 0 2).1, (C3_alternating_order 0 2).2.1 rfl⟩

/-- C5 counterexample: at frame t = 2 the code uses view index
`(2 / (21 / 9)) % 9 = (2 / 2) % 9 = 1` (integer division), while the claim
formula `floor(2 / (21/9)) mod 9` with exact division `21/9 = 7/3` gives
`floor(6/7) = 0`. -/
theorem C5_counterexample : diagViewIndex 2 ≠ diagViewIndexSpec 2 := by
  have h : ⌊((2 : ℕ) : ℚ) / ((21 : ℚ) / (9 : ℚ))⌋ = 0 := by
    rw [Int.floor_eq_zero_iff]
    constructor <;> norm_num
  have h2 : diagViewIndexSpec 2 = 0 := by
    rw [diagViewIndexSpec, h]
    rfl
  rw [h2]
  decide

/-- C5 amended: the diagonal video view index for frame t is
`(t / (21 / 9)) % 9` with integer division (so `(t / 2) % 9`), giving the
index sequence [0,0,1,1,2,2,3,3,4,4,5,5,6,6,7,7,8,8,0,0,1] for t = 0..20. -/
theorem C5_diag_index :
    (List.range n_frames).map diagViewIndex =
      [0, 0, 1, 1, 2, 2, 3, 3, 4, 4, 5, 5, 6, 6, 7, 7, 8, 8, 0, 0, 1] ∧
    ∀ t : ℕ, diagViewIndex t = (t / 2) % 9 := by
  exact ⟨by decide, fun t => rfl⟩

/-! ## Grid data model

`img_matrix = [[None] * n_views for _ in range(n_frames)]` becomes a total
function to `Option`; nested-loop writes become folds over index lists. -/

/-- The (frame, view) grid of optional images. -/
def Grid (α : Type) : Type := ℕ → ℕ → Option α

/-- Write one slot of the grid. -/
def updateGrid {α : Type} (g : Grid α) (t v : ℕ) (x : α) : Grid α :=
  fun t1 v1 => if t1 = t ∧ v1 = v then some x else g t1 v1

/-- The all-`None` initial matrix. -/
def emptyGrid {α : Type} : Grid α := fun _ _ => none

/-- Cartesian product of two index lists in row-major order, the shape of a
nested `for` loop. -/
def pairs {γ δ : Type} (l1 : List γ) (l2 : List δ) : List (γ × δ) :=
  (l1.map (fun a => l2.map (fun b => (a, b)))).flatten

theorem mem_pairs {γ δ : Type} {l1 : List γ} {l2 : List δ} {a : γ} {b : δ} :
    (a, b) ∈ pairs l1 l2 ↔ a ∈ l1 ∧ b ∈ l2 := by
  constructor
  · intro h
    rw [pairs, List.mem_flatten] at h
    obtain ⟨s, hs, hmem⟩ := h
    rw [List.mem_map] at hs
    obtain ⟨x, hx, rfl⟩ := hs
    rw [List.mem_map] at hmem
    obtain ⟨y, hy, heq⟩ := hmem
    injection heq with h1 h2
    subst h1
    subst h2
    exact ⟨hx, hy⟩
  · rintro ⟨ha, hb⟩
    rw [pairs, List.mem_flatten]
    exact ⟨l2.map (fun b => (a, b)), List.mem_map_of_mem _ ha, List.mem_map_of_mem _ hb⟩

/-- Grid initialization, source lines 134-138:
`img_matrix[0][i] = images_t0[v]` for `(i, v)` in `enumerate(subsampled_views)`,
then `img_matrix[t][0] = images_v0[t]` for `t` in `range(n_frames)`. -/
def initGrid {α : Type} (images_t0 images_v0 : ℕ → α) : Grid α :=
  (List.range n_frames).foldl (fun g t => updateGrid g t 0 (images_v0 t))
    (subsampled_views.enum.foldl (fun g p => updateGrid g 0 p.1 (images_t0 p.2)) emptyGrid)

/-- The (enumerated frame, enumerated view) pairs visited by the anchor-pass
write loop, source lines 174-175. -/
def anchorWrites : List ((ℕ × ℕ) × (ℕ × ℕ)) :=
  pairs anchor_frame_indices.enum view_indices.enum

/-- Anchor-pass write loop, source lines 174-177: write `samples i j` to slot
`(t, v)` only if that slot is still `None`. -/
def anchorPass {α : Type} (samples : ℕ → ℕ → α) (g : Grid α) : Grid α :=
  anchorWrites.foldl
    (fun g1 p =>
      match g1 p.1.2 p.2.2 with
      | none => updateGrid g1 p.1.2 p.2.2 (samples p.1.1 p.2.1)
      | some _ => g1) g

/-! ## Lookup characterization lemmas for the write loops -/

theorem range_col_fold_lookup {α : Type} (b : ℕ → α) (n : ℕ) (g : Grid α) (t v : ℕ) :
    ((List.range n).foldl (fun g1 t1 => updateGrid g1 t1 0 (b t1)) g) t v =
      if t < n ∧ v = 0 then some (b t) else g t v := by
  induction n with
  | zero => simp
  | succ n ih =>
    rw [List.range_succ, List.foldl_append, List.foldl_cons, List.foldl_nil]
    by_cases hc : t = n ∧ v = 0
    · rw [updateGrid, if_pos hc, if_pos ⟨by omega, hc.2⟩, hc.1]
    · show updateGrid _ n 0 (b n) t v = _
      rw [updateGrid]
      simp only [hc, if_false]
      rw [ih]
      by_cases h2 : t < n ∧ v = 0
      · rw [if_pos h2, if_pos ⟨by omega, h2.2⟩]
      · rw [if_neg h2, if_neg (by omega)]

theorem initGrid_col0 {α : Type} (a b : ℕ → α) (t : ℕ) (ht : t < n_frames) :
    initGrid a b t 0 = some (b t) := by
  rw [initGrid, range_col_fold_lookup, if_pos ⟨ht, rfl⟩]

theorem initGrid_row0_isSome {α : Type} (a b : ℕ → α) (v : ℕ) (hv : v < n_views) :
    (initGrid a b 0 v).isSome = true := by
  rw [initGrid, range_col_fold_lookup]
  by_cases h0 : v = 0
  · rw [if_pos ⟨by decide, h0⟩]; rfl
  · rw [if_neg (by omega)]
    have hv9 : v < 9 := hv
    interval_cases v
    · omega
    all_goals simp [subsampled_views, List.enum, updateGrid, emptyGrid]

/-- Preservation: the anchor pass never changes a slot that is already set
(the `if img_matrix[t][v] is None` guard). -/
theorem anchorPass_preserves_some {α : Type} (s : ℕ → ℕ → α) (g : Grid α)
    (t v : ℕ) (x : α) (h : g t v = some x) : anchorPass s g t v = some x := by
  rw [anchorPass]
  generalize anchorWrites = l
  induction l generalizing g with
  | nil => exact h
  | cons p l ih =>
    rw [List.foldl_cons]
    apply ih
    cases hg : g p.1.2 p.2.2 with
    | none =>
      simp only [hg]
      by_cases hc : t = p.1.2 ∧ v = p.2.2
      · exact absurd (hc.1 ▸ hc.2 ▸ h) (by rw [hg]; intro hx; cases hx)
      · rw [updateGrid, if_neg hc]; exact h
    | some y => simp only [hg]; exact h

theorem anchorPass_isSome_mono {α : Type} (s : ℕ → ℕ → α) (g : Grid α)
    (t v : ℕ) (h : (g t v).isSome = true) : (anchorPass s g t v).isSome = true := by
  cases hg : g t v with
  | none => rw [hg] at h; cases h
  | some x => rw [anchorPass_preserves_some s g t v x hg]; rfl

/-- Slots never visited by the anchor write loop are untouched. -/
theorem anchorPass_lookup_unwritten {α : Type} (s : ℕ → ℕ → α) (g : Grid α)
    (t v : ℕ) (h : ∀ p ∈ anchorWrites, ¬(t = p.1.2 ∧ v = p.2.2)) :
    anchorPass s g t v = g t v := by
  rw [anchorPass]
  have key : ∀ (l : List ((ℕ × ℕ) × (ℕ × ℕ))),
      (∀ p ∈ l, ¬(t = p.1.2 ∧ v = p.2.2)) → ∀ g1 : Grid α,
      (l.foldl (fun g2 p =>
        match g2 p.1.2 p.2.2 with
        | none => updateGrid g2 p.1.2 p.2.2 (s p.1.1 p.2.1)
        | some _ => g2) g1) t v = g1 t v := by
    intro l
    induction l with
    | nil => intro _ g1; rfl
    | cons p l ih =>
      intro hl g1
      rw [List.foldl_cons, ih (fun q hq => hl q (List.mem_cons_of_mem p hq)) _]
      cases hg : g1 p.1.2 p.2.2 with
      | none => simp only [hg]; rw [updateGrid, if_neg (hl p (List.mem_cons_self p l))]
      | some y => simp only [hg]
  exact key anchorWrites h g

/-- Anchor: column `v = 0` is never written (all write positions have a
nonzero view index). -/
theorem anchorPass_col0 {α : Type} (s : ℕ → ℕ → α) (g : Grid α) (t : ℕ) :
    anchorPass s g t 0 = g t 0 := by
  apply anchorPass_lookup_unwritten
  intro p hp
  have : ∀ p ∈ anchorWrites, p.2.2 ≠ 0 := by decide
  intro hc
  exact this p hp (hc.2.symm)

/-! ## Diffusion oracle and conditioning

The external model calls (`sample_sv3d`, `run_img2vid`,
`run_img2vid_per_step`, `decode_latents`) are opaque; each call record keeps
the full conditioning the script builds for it.  `scale` stands for the
image-range map `x * 2 - 1` applied to sampled and decoded images. -/

/-- One diffusion call together with the conditioning inputs built for it. -/
inductive DiffCall (α β R : Type) : Type
  | sv3d : Option α → List R → List R → DiffCall α β R
  | img2vid : Option α → List R → List R → List (Option α) → List (Option α) →
      DiffCall α β R
  | per_step : Option α → List R → List R → List (Option α) → List (Option α) →
      ℕ → List β → DiffCall α β R

/-- The external diffusion model, as a deterministic black box.  Multi-output
calls are read off per output index (the `.view(T, V, ...)` reshape). -/
structure Oracle (α β R : Type) where
  sample_sv3d : DiffCall α β R → ℕ → α
  run_img2vid : DiffCall α β R → ℕ → ℕ → α
  run_img2vid_per_step : DiffCall α β R → ℕ → ℕ → β
  decode_latents : β → α
  scale : α → α

/-- The per-window latent buffer `latent_matrix`. -/
def Lat (β : Type) : Type := ℕ → ℕ → β

/-- Write one latent slot. -/
def updateLat {β : Type} (l : Lat β) (t v : ℕ) (x : β) : Lat β :=
  fun t1 v1 => if t1 = t ∧ v1 = v then x else l t1 v1

section Angles

variable {R : Type} [LinearOrderedField R] [FloorRing R]

/-- Source `angles[subsampled_views[1:]][None].repeat(T, 0).flatten()`:
T concatenated copies of the 8 selected angles. -/
def condVec (angles : List R) : List R :=
  (List.replicate T ((subsampled_views.drop 1).map (fun v => angles.getD v 0))).flatten

/-- Source `azims = (azims - azimuths_rad[v0]) % (torch.pi * 2)` with
`v0 = 0`, applied to the subsampled azimuth vector. -/
def azimsVecOf (pi : R) (azRadL : List R) : List R :=
  (condVec azRadL).map (fun x => pymod (x - azRadL.getD 0 0) (2 * pi))

/-- Source line 111: `polars_rad = [deg2rad(90 - e) for e in elevations_deg]`. -/
def polarsRadOf (pi : R) (elevs : List R) : List R :=
  elevs.map (fun e => deg2rad pi (90 - e))

/-- Source lines 112-114:
`azimuths_rad = [deg2rad((a - azimuths_deg[-1]) % 360) for a in azimuths_deg]`. -/
def azimuthsRadOf (pi : R) (azs : List R) : List R :=
  azs.map (fun x => deg2rad pi (pymod (x - azs.getLastD 0) 360))

/-- Source line 107: `np.linspace(0, 360, n_views_sv3d + 1)[1:] % 360`. -/
def defaultAzimuths : List R :=
  (List.range n_views_sv3d).map (fun k => pymod (((k : R) + 1) * 360 / 21) 360)

end Angles

section Passes

variable {α β R : Type} [LinearOrderedField R] [FloorRing R]

/-- The anchor-pass diffusion call, source lines 164-172: reference image
`img_matrix[0][0]`, motion conditioning from the view-0 column at the anchor
frames, view conditioning from the frame-0 row. -/
def mkAnchorCall (pi : R) (pol az : List R) (g : Grid α) : DiffCall α β R :=
  DiffCall.img2vid (g 0 0) (condVec pol) (azimsVecOf pi az)
    (anchor_frame_indices.map (fun t => g t 0))
    (view_indices.map (fun v => g 0 v))

/-- The anchor pass as run by the script: one `run_img2vid` call, outputs
scaled by `* 2 - 1` and committed through the guarded write loop. -/
def anchorPassRun (o : Oracle α β R) (pi : R) (pol az : List R) (g : Grid α) :
    Grid α :=
  anchorPass (fun i j => o.scale (o.run_img2vid (mkAnchorCall pi pol az g) i j)) g

/-- The per-step dense diffusion call, source lines 189-208: conditioning is
rebuilt from the current grid with `t0 = frame_indices[0]` of the current
traversal order, and the noisy latents are the window slice of the latent
buffer in traversal order. -/
def mkStepCall (pi : R) (pol az : List R) (g : Grid α) (order : List ℕ)
    (k : ℕ) (lat : Lat β) : DiffCall α β R :=
  DiffCall.per_step (g (order.headD 0) 0) (condVec pol) (azimsVecOf pi az)
    (order.map (fun t => g t 0))
    (view_indices.map (fun v => g (order.headD 0) v)) k
    ((order.map (fun t => view_indices.map (fun v => lat t v))).flatten)

/-- Write-back of one dense step, source lines 209-212:
`latent_matrix[t, v] = samples[i, j]` over the traversal order and views. -/
def applyStep (o : Oracle α β R) (call : DiffCall α β R) (order : List ℕ)
    (lat : Lat β) : Lat β :=
  (pairs order.enum view_indices.enum).foldl
    (fun l p => updateLat l p.1.2 p.2.2 (o.run_img2vid_per_step call p.1.1 p.2.1))
    lat

/-- The `num_steps` refinement iterations of one dense window, source lines
185-212, returning the final latent buffer and the ordered list of per-step
diffusion calls. -/
def denseSteps (o : Oracle α β R) (pi : R) (pol az : List R) (g : Grid α)
    (numSteps : ℕ) (noise : Lat β) (t0 : ℕ) : Lat β × List (DiffCall α β R) :=
  (List.range numSteps).foldl
    (fun acc k =>
      let call := mkStepCall pi pol az g (frameOrder t0 k) k acc.1
      (applyStep o call (frameOrder t0 k) acc.1, acc.2 ++ [call]))
    (noise, [])

/-- Final latent buffer of the window starting at `t0`, with the noise
buffer drawn from the seeded generator (`torch.randn` after
`torch.manual_seed(seed)`, one fresh buffer per window). -/
def denseWindowLatents (o : Oracle α β R) (pi : R) (pol az : List R)
    (rng : ℕ → ℕ → ℕ → ℕ → β) (seed numSteps : ℕ) (g : Grid α) (t0 : ℕ) :
    Lat β :=
  (denseSteps o pi pol az g numSteps (fun t v => rng seed t0 t v) t0).1

/-- Decode-and-commit loop of a dense window, source lines 214-218: for every
frame in the leftover traversal order and every nonzero view, if
`t != 0 and v != 0`, decode the latent and overwrite the grid slot with the
scaled image. -/
def denseDecode (o : Oracle α β R) (g : Grid α) (lat : Lat β)
    (t0 steps : ℕ) : Grid α :=
  (pairs (finalFrameOrder t0 steps) view_indices).foldl
    (fun g1 p =>
      if p.1 ≠ 0 ∧ p.2 ≠ 0 then
        updateGrid g1 p.1 p.2 (o.scale (o.decode_latents (lat p.1 p.2)))
      else g1) g

/-- One full dense window: refinement iterations followed by decode-and-commit. -/
def denseWindow (o : Oracle α β R) (rng : ℕ → ℕ → ℕ → ℕ → β) (pi : R)
    (pol az : List R) (seed numSteps : ℕ) (g : Grid α) (t0 : ℕ) : Grid α :=
  denseDecode o g (denseWindowLatents o pi pol az rng seed numSteps g t0) t0 numSteps

/-- The dense pass, source line 181: windows at starts `[0, 4, 8, 12, 16]`. -/
def densePassGrid (o : Oracle α β R) (rng : ℕ → ℕ → ℕ → ℕ → β) (pi : R)
    (pol az : List R) (seed numSteps : ℕ) (g : Grid α) : Grid α :=
  windowStarts.foldl (fun g1 t0 => denseWindow o rng pi pol az seed numSteps g1 t0) g

end Passes

/-! ## Dense-pass lookup characterization -/

theorem decodeFold_lookup {α : Type} (l : List (ℕ × ℕ)) (w : ℕ → ℕ → α)
    (g : Grid α) (t v : ℕ) :
    (l.foldl (fun g1 p =>
        if p.1 ≠ 0 ∧ p.2 ≠ 0 then updateGrid g1 p.1 p.2 (w p.1 p.2) else g1) g) t v
      = if (t, v) ∈ l ∧ t ≠ 0 ∧ v ≠ 0 then some (w t v) else g t v := by
  induction l generalizing g with
  | nil => simp
  | cons p l ih =>
    rw [List.foldl_cons, ih]
    by_cases hm : (t, v) ∈ l ∧ t ≠ 0 ∧ v ≠ 0
    · rw [if_pos hm, if_pos ⟨List.mem_cons_of_mem _ hm.1, hm.2⟩]
    · rw [if_neg hm]
      by_cases hp : p = (t, v)
      · subst hp
        by_cases hg : t ≠ 0 ∧ v ≠ 0
        · rw [if_pos hg, updateGrid, if_pos ⟨rfl, rfl⟩,
            if_pos ⟨List.mem_cons_self _ _, hg⟩]
        · rw [if_neg hg, if_neg (fun hx => hg hx.2)]
      · have hne : ¬(t = p.1 ∧ v = p.2) := by
          intro hx
          exact hp (Prod.ext hx.1.symm hx.2.symm)
        have hmem : ((t, v) ∈ p :: l ∧ t ≠ 0 ∧ v ≠ 0) ↔ ((t, v) ∈ l ∧ t ≠ 0 ∧ v ≠ 0) := by
          constructor
          · rintro ⟨hin, hz⟩
            cases List.mem_cons.1 hin with
            | inl h => exact absurd h.symm hp
            | inr h => exact ⟨h, hz⟩
          · rintro ⟨hin, hz⟩
            exact ⟨List.mem_cons_of_mem _ hin, hz⟩
        rw [if_neg (fun hx => hm (hmem.1 hx))]
        by_cases hc : p.1 ≠ 0 ∧ p.2 ≠ 0
        · rw [if_pos hc, updateGrid, if_neg hne]
        · rw [if_neg hc]

theorem mem_finalFrameOrder (t0 steps t : ℕ) :
    t ∈ finalFrameOrder t0 steps ↔ t ∈ windowFrames t0 := by
  rw [finalFrameOrder, reverse_iterate_parity]
  split
  · exact List.mem_reverse
  · exact Iff.rfl

theorem view_indices_ne_zero : ∀ v ∈ view_indices, v ≠ 0 := by decide

/-- Full lookup law for one dense window: every slot with a frame in the
window, a nonzero frame index and a view in the nonzero view set receives the
decoded latent, unconditionally; every other slot is untouched. -/
theorem denseWindow_lookup {α β R : Type} [LinearOrderedField R] [FloorRing R]
    (o : Oracle α β R) (rng : ℕ → ℕ → ℕ → ℕ → β) (pi : R) (pol az : List R)
    (seed numSteps : ℕ) (g : Grid α) (t0 t v : ℕ) :
    denseWindow o rng pi pol az seed numSteps g t0 t v =
      if t ∈ windowFrames t0 ∧ v ∈ view_indices ∧ t ≠ 0 then
        some (o.scale (o.decode_latents
          (denseWindowLatents o pi pol az rng seed numSteps g t0 t v)))
      else g t v := by
  rw [denseWindow, denseDecode]
  refine Eq.trans
    (decodeFold_lookup (pairs (finalFrameOrder t0 numSteps) view_indices)
      (fun a b => o.scale (o.decode_latents
        (denseWindowLatents o pi pol az rng seed numSteps g t0 a b))) g t v) ?_
  have hiff : ((t, v) ∈ pairs (finalFrameOrder t0 numSteps) view_indices ∧ t ≠ 0 ∧ v ≠ 0) ↔
      (t ∈ windowFrames t0 ∧ v ∈ view_indices ∧ t ≠ 0) := by
    rw [mem_pairs, mem_finalFrameOrder]
    constructor
    · rintro ⟨⟨hw, hv⟩, hz⟩
      exact ⟨hw, hv, hz.1⟩
    · rintro ⟨hw, hv, hz⟩
      exact ⟨⟨hw, hv⟩, hz, view_indices_ne_zero v hv⟩
  by_cases hc : t ∈ windowFrames t0 ∧ v ∈ view_indices ∧ t ≠ 0
  · rw [if_pos (hiff.2 hc), if_pos hc]
  · rw [if_neg (fun hx => hc (hiff.1 hx)), if_neg hc]

theorem denseWindow_isSome_mono {α β R : Type} [LinearOrderedField R] [FloorRing R]
    (o : Oracle α β R) (rng : ℕ → ℕ → ℕ → ℕ → β) (pi : R) (pol az : List R)
    (seed numSteps : ℕ) (g : Grid α) (t0 t v : ℕ)
    (h : (g t v).isSome = true) :
    (denseWindow o rng pi pol az seed numSteps g t0 t v).isSome = true := by
  rw [denseWindow_lookup]
  split
  · rfl
  · exact h

theorem denseWindow_col0 {α β R : Type} [LinearOrderedField R] [FloorRing R]
    (o : Oracle α β R) (rng : ℕ → ℕ → ℕ → ℕ → β) (pi : R) (pol az : List R)
    (seed numSteps : ℕ) (g : Grid α) (t0 t : ℕ) :
    denseWindow o rng pi pol az seed numSteps g t0 t 0 = g t 0 := by
  rw [denseWindow_lookup, if_neg]
  rintro ⟨-, hv, -⟩
  exact view_indices_ne_zero 0 hv rfl

theorem densePassGrid_isSome_mono {α β R : Type} [LinearOrderedField R] [FloorRing R]
    (o : Oracle α β R) (rng : ℕ → ℕ → ℕ → ℕ → β) (pi : R) (pol az : List R)
    (seed numSteps : ℕ) (g : Grid α) (t v : ℕ)
    (h : (g t v).isSome = true) :
    (densePassGrid o rng pi pol az seed numSteps g t v).isSome = true := by
  rw [densePassGrid]
  have key : ∀ (l : List ℕ) (g1 : Grid α), (g1 t v).isSome = true →
      ((l.foldl (fun g2 t0 => denseWindow o rng pi pol az seed numSteps g2 t0) g1) t v).isSome = true := by
    intro l
    induction l with
    | nil => intro g1 h1; exact h1
    | cons t0 l ih =>
      intro g1 h1
      rw [List.foldl_cons]
      exact ih _ (denseWindow_isSome_mono o rng pi pol az seed numSteps g1 t0 t v h1)
  exact key windowStarts g h

theorem densePassGrid_col0 {α β R : Type} [LinearOrderedField R] [FloorRing R]
    (o : Oracle α β R) (rng : ℕ → ℕ → ℕ → ℕ → β) (pi : R) (pol az : List R)
    (seed numSteps : ℕ) (g : Grid α) (t : ℕ) :
    densePassGrid o rng pi pol az seed numSteps g t 0 = g t 0 := by
  rw [densePassGrid]
  have key : ∀ (l : List ℕ) (g1 : Grid α),
      ((l.foldl (fun g2 t0 => denseWindow o rng pi pol az seed numSteps g2 t0) g1) t 0) = g1 t 0 := by
    intro l
    induction l with
    | nil => intro g1; rfl
    | cons t0 l ih =>
      intro g1
      rw [List.foldl_cons, ih, denseWindow_col0]
  exact key windowStarts g

theorem densePassGrid_covers {α β R : Type} [LinearOrderedField R] [FloorRing R]
    (o : Oracle α β R) (rng : ℕ → ℕ → ℕ → ℕ → β) (pi : R) (pol az : List R)
    (seed numSteps : ℕ) (g : Grid α) (t v : ℕ)
    (ht : ∃ t0 ∈ windowStarts, t ∈ windowFrames t0) (hv : v ∈ view_indices)
    (hz : t ≠ 0) :
    (densePassGrid o rng pi pol az seed numSteps g t v).isSome = true := by
  rw [densePassGrid]
  have key : ∀ (l : List ℕ) (g1 : Grid α), (∃ t0 ∈ l, t ∈ windowFrames t0) →
      ((l.foldl (fun g2 t0 => denseWindow o rng pi pol az seed numSteps g2 t0) g1) t v).isSome = true := by
    intro l
    induction l with
    | nil => rintro g1 ⟨t0, ht0, -⟩; cases ht0
    | cons t0 l ih =>
      rintro g1 ⟨t1, ht1, hw⟩
      rw [List.foldl_cons]
      cases List.mem_cons.1 ht1 with
      | inl h1 =>
        subst h1
        have hsome : (denseWindow o rng pi pol az seed numSteps g1 t1 t v).isSome = true := by
          rw [denseWindow_lookup, if_pos ⟨hw, hv, hz⟩]
          rfl
        have mono : ∀ (l2 : List ℕ) (g2 : Grid α), (g2 t v).isSome = true →
            ((l2.foldl (fun g3 t2 => denseWindow o rng pi pol az seed numSteps g3 t2) g2) t v).isSome = true := by
          intro l2
          induction l2 with
          | nil => intro g2 h2; exact h2
          | cons t2 l2 ih2 =>
            intro g2 h2
            rw [List.foldl_cons]
            exact ih2 _ (denseWindow_isSome_mono o rng pi pol az seed numSteps g2 t2 t v h2)
        exact mono l _ hsome
      | inr h1 => exact ih _ ⟨t1, h1, hw⟩
  exact key windowStarts g ht

/-! ## Concrete instances used by witnesses and counterexamples -/

/-- A concrete deterministic oracle on naturals, with distinguishable outputs
per call kind. -/
def natOracle : Oracle ℕ ℕ ℚ :=
  ⟨fun _ i => 1000 + i, fun _ i j => 100 + 10 * i + j, fun _ i j => 10 * i + j,
   fun x => 5000 + x, fun x => 2 * x⟩

/-- A concrete seeded noise generator. -/
def natRng : ℕ → ℕ → ℕ → ℕ → ℕ := fun s w t v => s + w + t + v

/-! ## Claims C1, C2, C4 -/

/-- C1: after the dense pass completes, every grid slot (t, v) with
t < n_frames and v < n_views is non-empty, for any oracle, noise, angles,
seed and step count. -/
theorem C1_grid_full {α β R : Type} [LinearOrderedField R] [FloorRing R]
    (o : Oracle α β R) (rng : ℕ → ℕ → ℕ → ℕ → β) (pi : R) (pol az : List R)
    (seed numSteps : ℕ) (images_t0 images_v0 : ℕ → α) :
    ∀ t, t < n_frames → ∀ v, v < n_views →
      ((densePassGrid o rng pi pol az seed numSteps
        (anchorPassRun o pi pol az (initGrid images_t0 images_v0))) t v).isSome = true := by
  intro t ht v hv
  by_cases hv0 : v = 0
  · subst hv0
    rw [densePassGrid_col0, anchorPassRun, anchorPass_col0,
      initGrid_col0 images_t0 images_v0 t ht]
    rfl
  · by_cases ht0 : t = 0
    · subst ht0
      apply densePassGrid_isSome_mono
      rw [anchorPassRun]
      exact anchorPass_isSome_mono _ _ 0 v (initGrid_row0_isSome images_t0 images_v0 v hv)
    · apply densePassGrid_covers
      · have hcov : ∀ t1 : ℕ, t1 < n_frames → t1 ≠ 0 →
            ∃ t0 ∈ windowStarts, t1 ∈ windowFrames t0 := by decide
        exact hcov t ht ht0
      · have hvmem : ∀ v1 : ℕ, v1 < n_views → v1 ≠ 0 → v1 ∈ view_indices := by decide
        exact hvmem v hv hv0
      · exact ht0

/-- C1 witness at the last grid slot (20, 8) of a fully concrete run. -/
theorem C1_grid_full_witness :
    ((densePassGrid natOracle natRng 0 [] [] 23 2
      (anchorPassRun natOracle 0 [] [] (initGrid (fun i => i) (fun t => t)))) 20 8).isSome = true :=
  C1_grid_full natOracle natRng 0 [] [] 23 2 (fun i => i) (fun t => t)
    20 (by decide) 8 (by decide)

/-- C2 counterexample: slot (4, 1) is set by the anchor pass, yet the dense
window starting at 0 overwrites it during decode-and-commit (the decode loop
has no `is None` guard), contradicting the claim that an already-set slot is
never overwritten. -/
theorem C2_counterexample :
    (anchorPassRun natOracle 0 [] [] (initGrid (fun i => i) (fun t => t)) 4 1).isSome = true ∧
    denseWindow natOracle natRng 0 [] [] 23 1
        (anchorPassRun natOracle 0 [] [] (initGrid (fun i => i) (fun t => t))) 0 4 1 ≠
      anchorPassRun natOracle 0 [] [] (initGrid (fun i => i) (fun t => t)) 4 1 := by
  decide

/-- C2 amended: after the final iteration of a dense window, the decode
loop writes a decoded image into every slot of the window whose frame index
is nonzero and whose view is one of the nonzero views, unconditionally
(overwriting already-set slots, including anchor-pass outputs); slots with
frame 0 or view 0 are never written by the decode loop. -/
theorem C2_dense_decode_commit {α β R : Type} [LinearOrderedField R] [FloorRing R]
    (o : Oracle α β R) (rng : ℕ → ℕ → ℕ → ℕ → β) (pi : R) (pol az : List R)
    (seed numSteps t0 : ℕ) (g : Grid α) :
    (∀ t ∈ windowFrames t0, t ≠ 0 → ∀ v ∈ view_indices,
      denseWindow o rng pi pol az seed numSteps g t0 t v =
        some (o.scale (o.decode_latents
          (denseWindowLatents o pi pol az rng seed numSteps g t0 t v)))) ∧
    (∀ t v, t = 0 ∨ t ∉ windowFrames t0 ∨ v ∉ view_indices →
      denseWindow o rng pi pol az seed numSteps g t0 t v = g t v) := by
  constructor
  · intro t htw htz v hv
    rw [denseWindow_lookup, if_pos ⟨htw, hv, htz⟩]
  · intro t v h
    rw [denseWindow_lookup, if_neg]
    rintro ⟨hw, hv, hz⟩
    rcases h with h | h | h
    · exact hz h
    · exact h hw
    · exact h hv

/-- C2 witness: in the window starting at 4, slot (6, 3) is decoded and
committed, while slot (30, 3) outside the window is untouched. -/
theorem C2_dense_decode_commit_witness :
    denseWindow natOracle natRng 0 [] [] 23 1 (fun _ _ => some 0) 4 6 3 =
      some (natOracle.scale (natOracle.decode_latents
        (denseWindowLatents natOracle 0 [] [] natRng 23 1 (fun _ _ => some 0) 4 6 3))) ∧
    denseWindow natOracle natRng 0 [] [] 23 1 (fun _ _ => some 0) 4 30 3 = some 0 :=
  ⟨(C2_dense_decode_commit natOracle natRng 0 [] [] 23 1 4 (fun _ _ => some 0)).1
      6 (by decide) (by decide) 3 (by decide),
   (C2_dense_decode_commit natOracle natRng 0 [] [] 23 1 4 (fun _ _ => some 0)).2
      30 3 (Or.inr (Or.inl (by decide)))⟩

/-- C4: the view-0 column of the grid equals the input video frames after
initialization and is unchanged by the anchor pass and the dense pass; and
the anchor pass never writes to any slot that is already set. -/
theorem C4_ground_truth_preserved {α β R : Type} [LinearOrderedField R] [FloorRing R]
    (o : Oracle α β R) (rng : ℕ → ℕ → ℕ → ℕ → β) (pi : R) (pol az : List R)
    (seed numSteps : ℕ) (images_t0 images_v0 : ℕ → α) (s : ℕ → ℕ → α) :
    (∀ t, t < n_frames →
      initGrid images_t0 images_v0 t 0 = some (images_v0 t) ∧
      anchorPassRun o pi pol az (initGrid images_t0 images_v0) t 0 = some (images_v0 t) ∧
      densePassGrid o rng pi pol az seed numSteps
        (anchorPassRun o pi pol az (initGrid images_t0 images_v0)) t 0 = some (images_v0 t)) ∧
    (∀ (g : Grid α) (t v : ℕ) (x : α), g t v = some x → anchorPass s g t v = some x) := by
  constructor
  · intro t ht
    have h1 := initGrid_col0 images_t0 images_v0 t ht
    have h2 : anchorPassRun o pi pol az (initGrid images_t0 images_v0) t 0 =
        some (images_v0 t) := by
      rw [anchorPassRun, anchorPass_col0, h1]
    exact ⟨h1, h2, by rw [densePassGrid_col0, h2]⟩
  · intro g t v x h
    exact anchorPass_preserves_some s g t v x h

/-- C4 witness: ground-truth frame 5 survives all passes in a concrete run,
and a concretely pre-set slot (0, 1) survives the anchor write loop. -/
theorem C4_ground_truth_preserved_witness :
    densePassGrid natOracle natRng 0 [] [] 23 2
      (anchorPassRun natOracle 0 [] [] (initGrid (fun i => i) (fun t => t))) 5 0 = some 5 ∧
    anchorPass (fun i j => i + j) (updateGrid emptyGrid 0 1 7) 0 1 = some 7 :=
  ⟨((C4_ground_truth_preserved natOracle natRng 0 [] [] 23 2 (fun i => i) (fun t => t)
      (fun i j => i + j)).1 5 (by decide)).2.2,
   (C4_ground_truth_preserved natOracle natRng 0 [] [] 23 2 (fun i => i) (fun t => t)
      (fun i j => i + j)).2 (updateGrid emptyGrid 0 1 7) 0 1 7 rfl⟩

/-! ## Azimuth range bounds (C8) -/

theorem pymod_nonneg {R : Type} [LinearOrderedField R] [FloorRing R]
    (x m : R) (hm : 0 < m) : 0 ≤ pymod x m := by
  have hfr : pymod x m = m * Int.fract (x / m) := by
    rw [pymod, Int.fract, mul_sub, mul_div_cancel₀ _ (ne_of_gt hm)]
  rw [hfr]
  exact mul_nonneg hm.le (Int.fract_nonneg _)

theorem pymod_lt {R : Type} [LinearOrderedField R] [FloorRing R]
    (x m : R) (hm : 0 < m) : pymod x m < m := by
  have hfr : pymod x m = m * Int.fract (x / m) := by
    rw [pymod, Int.fract, mul_sub, mul_div_cancel₀ _ (ne_of_gt hm)]
  rw [hfr]
  calc m * Int.fract (x / m) < m * 1 :=
        mul_lt_mul_of_pos_left (Int.fract_lt_one _) hm
    _ = m := mul_one m

/-- C8: every stored azimuth in `azimuths_rad` lies in [0, 2*pi), and so does
every entry of the relative azimuth vector passed to the diffusion calls. -/
theorem C8_azimuths_in_range (azsDeg : List ℝ) :
    (∀ x ∈ azimuthsRadOf Real.pi azsDeg, 0 ≤ x ∧ x < 2 * Real.pi) ∧
    (∀ x ∈ azimsVecOf Real.pi (azimuthsRadOf Real.pi azsDeg),
      0 ≤ x ∧ x < 2 * Real.pi) := by
  constructor
  · intro x hx
    rw [azimuthsRadOf, List.mem_map] at hx
    obtain ⟨a, -, rfl⟩ := hx
    have h0 : (0:ℝ) < 360 := by norm_num
    have hy0 := pymod_nonneg (a - azsDeg.getLastD 0) 360 h0
    have hy1 := pymod_lt (a - azsDeg.getLastD 0) 360 h0
    set y := pymod (a - azsDeg.getLastD 0) 360 with hy
    constructor
    · rw [deg2rad]
      positivity
    · rw [deg2rad]
      nlinarith [Real.pi_pos, mul_lt_mul_of_pos_right hy1 Real.pi_pos]
  · intro x hx
    rw [azimsVecOf, List.mem_map] at hx
    obtain ⟨a, -, rfl⟩ := hx
    have h0 : (0:ℝ) < 2 * Real.pi := by positivity
    exact ⟨pymod_nonneg _ _ h0, pymod_lt _ _ h0⟩

/-- C8 witness: the azimuth stored for view 0 when all input azimuths are 0
degrees lies in [0, 2*pi). -/
theorem C8_azimuths_in_range_witness :
    0 ≤ deg2rad Real.pi (pymod ((0:ℝ) - (List.replicate 21 (0:ℝ)).getLastD 0) 360) ∧
    deg2rad Real.pi (pymod ((0:ℝ) - (List.replicate 21 (0:ℝ)).getLastD 0) 360) <
      2 * Real.pi :=
  (C8_azimuths_in_range (List.replicate 21 0)).1 _
    (List.mem_map_of_mem _ (by simp))

/-! ## The full script run: validation, passes, output assembly -/

/-- One saved video: run number prefix, name tag, frame list. -/
structure RunResult (α β R : Type) where
  grid : Grid α
  calls : List (DiffCall α β R)
  saves : List (ℕ × String × List (Option α))

/-- Frames of the diagonal output video, source lines 227-229. -/
def diagFrames {α : Type} (g : Grid α) : List (Option α) :=
  (List.range n_frames).map (fun t => g t (diagViewIndex t))

/-- Zero-padded three-digit view number, as in `f"v{v:03d}"`. -/
def pad3 (v : ℕ) : String :=
  if v < 10 then "00" ++ toString v
  else if v < 100 then "0" ++ toString v
  else toString v

section Pipeline

variable {α β R : Type} [LinearOrderedField R] [FloorRing R]

/-- The dense pass over all window starts, also collecting the ordered list
of per-step diffusion calls. -/
def densePassRun (o : Oracle α β R) (rng : ℕ → ℕ → ℕ → ℕ → β) (pi : R)
    (pol az : List R) (seed numSteps : ℕ) (g : Grid α) :
    Grid α × List (DiffCall α β R) :=
  windowStarts.foldl
    (fun acc t0 =>
      (denseWindow o rng pi pol az seed numSteps acc.1 t0,
       acc.2 ++ (denseSteps o pi pol az acc.1 numSteps (fun t v => rng seed t0 t v) t0).2))
    (g, [])

/-- Everything the script does after input validation: SV3D multi-view
sampling (with the `torch.roll` by one), grid initialization, the two seed
video saves, the anchor pass, the dense pass, and assembly of the per-view
and diagonal output videos. -/
def runBody (o : Oracle α β R) (rng : ℕ → ℕ → ℕ → ℕ → β) (pi : R)
    (images_v0 : ℕ → α) (numSteps seed mp4Count : ℕ) (elevs azsDeg : List R) :
    RunResult α β R :=
  let polarsRadL := polarsRadOf pi elevs
  let azRadL := azimuthsRadOf pi azsDeg
  let sv3dCall : DiffCall α β R := DiffCall.sv3d (some (images_v0 0)) polarsRadL azRadL
  let images_t0 := fun i => o.sample_sv3d sv3dCall ((i + 20) % 21)
  let g0 := initGrid images_t0 images_v0
  let base := mp4Count / 10
  let anchorCall : DiffCall α β R := mkAnchorCall pi polarsRadL azRadL g0
  let g1 := anchorPassRun o pi polarsRadL azRadL g0
  let dres := densePassRun o rng pi polarsRadL azRadL seed numSteps g1
  { grid := dres.1,
    calls := sv3dCall :: anchorCall :: dres.2,
    saves := (base, "t000", (List.range n_views).map (fun v => g0 0 v)) ::
      (base, "v000", (List.range n_frames).map (fun t => g0 t 0)) ::
      (view_indices.map (fun v =>
        (base, "v" ++ pad3 v, (List.range n_frames).map (fun t => dres.1 t v))) ++
       [(base, "diag", diagFrames dres.1)]) }

/-- Azimuth-list validation, source lines 106-110: a missing list gets the
linspace default, a present list must have length `n_views_sv3d`. -/
def sampleRunAz (o : Oracle α β R) (rng : ℕ → ℕ → ℕ → ℕ → β) (pi : R)
    (images_v0 : ℕ → α) (numSteps seed mp4Count : ℕ) (elevs : List R)
    (azimuths_deg : Option (List R)) : Except String (RunResult α β R) :=
  match azimuths_deg with
  | none =>
    Except.ok (runBody o rng pi images_v0 numSteps seed mp4Count elevs defaultAzimuths)
  | some l =>
    if l.length = n_views_sv3d then
      Except.ok (runBody o rng pi images_v0 numSteps seed mp4Count elevs l)
    else
      Except.error
        ("Please provide a list of 21 values for azimuths_deg! Given " ++
          toString l.length)

/-- The whole `sample` entry point, starting with elevation validation,
source lines 101-105: a scalar is replicated to all `n_views_sv3d` views, a
list must have length `n_views_sv3d`.  Both validations run before any
diffusion call. -/
def sampleRun (o : Oracle α β R) (rng : ℕ → ℕ → ℕ → ℕ → β) (pi : R)
    (images_v0 : ℕ → α) (numSteps seed mp4Count : ℕ)
    (elevations_deg : R ⊕ List R) (azimuths_deg : Option (List R)) :
    Except String (RunResult α β R) :=
  match elevations_deg with
  | Sum.inl e =>
    sampleRunAz o rng pi images_v0 numSteps seed mp4Count
      (List.replicate n_views_sv3d e) azimuths_deg
  | Sum.inr l =>
    if l.length = n_views_sv3d then
      sampleRunAz o rng pi images_v0 numSteps seed mp4Count l azimuths_deg
    else
      Except.error
        ("Please provide 1 value, or a list of 21 values for elevations_deg! Given " ++
          toString l.length)

end Pipeline

/-- Diffusion calls issued by a (possibly failed) run: a validation failure
aborts before any call. -/
def diffusionCallsOf {α β R : Type} (r : Except String (RunResult α β R)) :
    List (DiffCall α β R) :=
  match r with
  | Except.error _ => []
  | Except.ok res => res.calls

/-- An elevation or azimuth list of the wrong length. -/
def malformedAngles {R : Type} (elev : R ⊕ List R) (azim : Option (List R)) : Prop :=
  (∃ l, elev = Sum.inr l ∧ l.length ≠ n_views_sv3d) ∨
  (∃ l, azim = some l ∧ l.length ≠ n_views_sv3d)

/-! ## Claims C7, C9, C10 -/

/-- C7: a wrong-length elevation or azimuth list makes the run fail with a
descriptive validation error, and zero diffusion calls are issued. -/
theorem C7_validation_before_calls {α β R : Type} [LinearOrderedField R] [FloorRing R]
    (o : Oracle α β R) (rng : ℕ → ℕ → ℕ → ℕ → β) (pi : R) (images_v0 : ℕ → α)
    (numSteps seed mp4Count : ℕ) (elevations_deg : R ⊕ List R)
    (azimuths_deg : Option (List R))
    (h : malformedAngles elevations_deg azimuths_deg) :
    (∃ msg, sampleRun o rng pi images_v0 numSteps seed mp4Count
        elevations_deg azimuths_deg = Except.error msg) ∧
    diffusionCallsOf (sampleRun o rng pi images_v0 numSteps seed mp4Count
        elevations_deg azimuths_deg) = [] := by
  rcases h with ⟨l, rfl, hlen⟩ | ⟨l, haz, hlen⟩
  · simp only [sampleRun, if_neg hlen]
    exact ⟨⟨_, rfl⟩, rfl⟩
  · subst haz
    cases elevations_deg with
    | inl e =>
      simp only [sampleRun, sampleRunAz, if_neg hlen]
      exact ⟨⟨_, rfl⟩, rfl⟩
    | inr l2 =>
      by_cases h2 : l2.length = n_views_sv3d
      · simp only [sampleRun, if_pos h2, sampleRunAz, if_neg hlen]
        exact ⟨⟨_, rfl⟩, rfl⟩
      · simp only [sampleRun, if_neg h2]
        exact ⟨⟨_, rfl⟩, rfl⟩

/-- C7 witness: a one-element elevation list aborts a concrete run with an
error and an empty diffusion call trace. -/
theorem C7_validation_before_calls_witness :
    (∃ msg, sampleRun natOracle natRng 0 (fun t => t) 2 23 0
        (Sum.inr [(1:ℚ)]) none = Except.error msg) ∧
    diffusionCallsOf (sampleRun natOracle natRng 0 (fun t => t) 2 23 0
        (Sum.inr [(1:ℚ)]) none) = [] :=
  C7_validation_before_calls natOracle natRng 0 (fun t => t) 2 23 0
    (Sum.inr [(1:ℚ)]) none (Or.inl ⟨[(1:ℚ)], rfl, by decide⟩)

/-- C9: with the same seed, the same input frames and the same configuration
(and the oracle and noise generator being fixed deterministic functions),
two runs produce identical results: same grid fill, same ordered diffusion
calls with their conditioning, same output videos. -/
theorem C9_deterministic {α β R : Type} [LinearOrderedField R] [FloorRing R]
    (o : Oracle α β R) (rng : ℕ → ℕ → ℕ → ℕ → β) (pi : R)
    (images1 images2 : ℕ → α) (numSteps1 numSteps2 seed1 seed2 mp41 mp42 : ℕ)
    (elev1 elev2 : R ⊕ List R) (azim1 azim2 : Option (List R))
    (himg : images1 = images2) (hsteps : numSteps1 = numSteps2)
    (hseed : seed1 = seed2) (hmp4 : mp41 = mp42)
    (helev : elev1 = elev2) (hazim : azim1 = azim2) :
    sampleRun o rng pi images1 numSteps1 seed1 mp41 elev1 azim1 =
      sampleRun o rng pi images2 numSteps2 seed2 mp42 elev2 azim2 := by
  subst himg hsteps hseed hmp4 helev hazim
  rfl

/-- C9 witness at a fully concrete configuration. -/
theorem C9_deterministic_witness :
    sampleRun natOracle natRng 0 (fun t => t) 2 23 0 (Sum.inl (10:ℚ)) none =
      sampleRun natOracle natRng 0 (fun t => t) 2 23 0 (Sum.inl (10:ℚ)) none :=
  C9_deterministic natOracle natRng 0 (fun t => t) (fun t => t) 2 2 23 23 0 0
    (Sum.inl (10:ℚ)) (Sum.inl (10:ℚ)) none none rfl rfl rfl rfl rfl rfl

theorem runBody_saves_shape {α β R : Type} [LinearOrderedField R] [FloorRing R]
    (o : Oracle α β R) (rng : ℕ → ℕ → ℕ → ℕ → β) (pi : R) (images_v0 : ℕ → α)
    (numSteps seed mp4Count : ℕ) (elevs azsDeg : List R) :
    (runBody o rng pi images_v0 numSteps seed mp4Count elevs azsDeg).saves.length = 11 ∧
    ∀ s ∈ (runBody o rng pi images_v0 numSteps seed mp4Count elevs azsDeg).saves,
      s.1 = mp4Count / 10 := by
  constructor
  · simp [runBody, view_indices, V]
  · intro s hs
    simp only [runBody, List.mem_cons, List.mem_append, List.mem_map,
      List.not_mem_nil, or_false] at hs
    rcases hs with rfl | rfl | ⟨v, -, rfl⟩ | rfl <;> rfl

/-- C10 amended: every completed run saves exactly 11 videos (two seed
videos, eight per-view videos, one diagonal video), each prefixed with run
number `mp4Count / 10`; since a run adds 11 files while the prefix divides
by 10, the run number after k complete runs into an initially empty folder
is `k + k / 10`, so successive runs are numbered consecutively until every
tenth run skips a number. -/
theorem C10_output_files {α β R : Type} [LinearOrderedField R] [FloorRing R]
    (o : Oracle α β R) (rng : ℕ → ℕ → ℕ → ℕ → β) (pi : R) (images_v0 : ℕ → α)
    (numSteps seed mp4Count : ℕ) (elevations_deg : R ⊕ List R)
    (azimuths_deg : Option (List R)) (r : RunResult α β R)
    (h : sampleRun o rng pi images_v0 numSteps seed mp4Count
        elevations_deg azimuths_deg = Except.ok r) :
    r.saves.length = 11 ∧ (∀ s ∈ r.saves, s.1 = mp4Count / 10) ∧
    (∀ k : ℕ, 11 * k / 10 = k + k / 10) := by
  have haz : ∀ (elevs : List R) (r1 : RunResult α β R),
      sampleRunAz o rng pi images_v0 numSteps seed mp4Count elevs azimuths_deg =
        Except.ok r1 →
      r1.saves.length = 11 ∧ ∀ s ∈ r1.saves, s.1 = mp4Count / 10 := by
    intro elevs r1 h1
    cases azimuths_deg with
    | none =>
      simp only [sampleRunAz, Except.ok.injEq] at h1
      subst h1
      exact runBody_saves_shape o rng pi images_v0 numSteps seed mp4Count elevs _
    | some l =>
      simp only [sampleRunAz] at h1
      split at h1
      · rw [Except.ok.injEq] at h1
        subst h1
        exact runBody_saves_shape o rng pi images_v0 numSteps seed mp4Count elevs _
      · cases h1
  have harith : ∀ k : ℕ, 11 * k / 10 = k + k / 10 := by
    intro k
    omega
  cases elevations_deg with
  | inl e =>
    simp only [sampleRun] at h
    obtain ⟨h1, h2⟩ := haz _ r h
    exact ⟨h1, h2, harith⟩
  | inr l =>
    simp only [sampleRun] at h
    split at h
    · obtain ⟨h1, h2⟩ := haz _ r h
      exact ⟨h1, h2, harith⟩
    · cases h

/-- C10 witness: a concrete completed run saves 11 videos, all prefixed 0. -/
theorem C10_output_files_witness :
    (runBody natOracle natRng 0 (fun t => t) 2 23 0
        (List.replicate 21 (10:ℚ)) defaultAzimuths).saves.length = 11 ∧
    (∀ s ∈ (runBody natOracle natRng 0 (fun t => t) 2 23 0
        (List.replicate 21 (10:ℚ)) defaultAzimuths).saves, s.1 = 0 / 10) ∧
    (∀ k : ℕ, 11 * k / 10 = k + k / 10) :=
  C10_output_files natOracle natRng 0 (fun t => t) 2 23 0
    (Sum.inl (10:ℚ)) none _ rfl

/-- C10 counterexample: the first run into an empty folder is numbered 0 and
writes 11 files, so the next run (11 pre-existing files) is numbered
`11 / 10 = 1`: two successive runs ARE numbered consecutively, contradicting
the claim that they are not. -/
theorem C10_counterexample :
    (runBody natOracle natRng 0 (fun t => t) 1 23 0
        (List.replicate 21 (10:ℚ)) defaultAzimuths).saves.length = 11 ∧
    ((runBody natOracle natRng 0 (fun t => t) 1 23 0
        (List.replicate 21 (10:ℚ)) defaultAzimuths).saves.headD (0, "", [])).1 = 0 ∧
    ((runBody natOracle natRng 0 (fun t => t) 1 23 11
        (List.replicate 21 (10:ℚ)) defaultAzimuths).saves.headD (0, "", [])).1 = 1 ∧
    1 = 0 + 1 := by
  refine ⟨(runBody_saves_shape natOracle natRng 0 (fun t => t) 1 23 0
    (List.replicate 21 (10:ℚ)) defaultAzimuths).1, rfl, rfl, rfl⟩

end SV4D
